import Mathlib

/-!
Verification development for the Barnameh operations optimization engine
(packages/optimization-engine: resource_optimizer.py, scheduling_optimizer.py,
capacity_planner.py).

Numbers are modelled as rationals (Python floats carry exact decimal inputs in
all scenarios of interest); Python round(x, n) is modelled as round-half-to-even
on x*10^n, matching float rounding semantics on exact values.  Operations that
can raise in Python (ZeroDivisionError, statistics.StatisticsError on an empty
list) are modelled by returning none from the enclosing call, since the
exception destroys the whole result.  Wall-clock fields (execution_time) are
omitted.  The external PuLP solver is abstracted as an LpOutcome record
(status string, per-variable values, objective value) passed as a parameter;
module-level PULP_AVAILABLE becomes a Boolean parameter of optimize.
Python dictionaries keyed by id are modelled as total functions with overwrite
on duplicate keys (matching dict semantics); dictionaries reported in results
are modelled as association lists built in iteration order.
-/

set_option allowUnsafeReducibility true

attribute [local semireducible] Rat.add Rat.mul Rat.sub Rat.inv Rat.div Rat.neg

namespace Barnameh

/-- Round-half-to-even of a rational to an integer, modelling Python round(). -/
def pyRound (q : ℚ) : ℤ :=
  if q - ⌊q⌋ = 1/2 then (if ⌊q⌋ % 2 = 0 then ⌊q⌋ else ⌊q⌋ + 1) else round q

/-- Python round(x, 2). -/
def round2 (q : ℚ) : ℚ := (pyRound (q * 100) : ℚ) / 100

/-- Python round(x, 1). -/
def round1 (q : ℚ) : ℚ := (pyRound (q * 10) : ℚ) / 10

/-- statistics.mean on a nonempty list (callers guard emptiness; the empty
case, which raises StatisticsError in Python, is mapped to none by callers). -/
def mean (l : List ℚ) : ℚ := l.sum / l.length

/-! ## Entity model (resource_optimizer.py) -/

/-- Resource entity (resource_optimizer.py, class Resource). -/
structure Resource where
  resource_id : String
  resource_type : String
  capacity : ℚ
  cost_per_hour : ℚ
  availability : ℚ
deriving DecidableEq, Repr

/-- Task entity (resource_optimizer.py, class Task). -/
structure Task where
  task_id : String
  product_id : String
  required_quantity : ℚ
  duration_hours : ℚ
  priority : ℤ
deriving DecidableEq, Repr

/-- One assignment dict appended by optimize / _simple_optimization.
allocated_hours and cost are the rounded values stored in the dict;
allocated_raw is the unrounded hour figure the algorithm tracks internally
(via remaining_capacity and total_hours). -/
structure Assignment where
  task_id : String
  product_id : String
  resource_id : String
  resource_type : String
  allocated_hours : ℚ
  cost : ℚ
  allocated_raw : ℚ
deriving DecidableEq, Repr

/-- OptimizationResult (execution_time omitted). -/
structure OptimizationResult where
  success : Bool
  objective_value : ℚ
  assignments : List Assignment
  utilization : List (String × ℚ)
  recommendations : List String
deriving DecidableEq, Repr

/-- ResourceOptimizer instance state: the registered catalogs. -/
structure ResourceOptimizer where
  resources : List Resource
  tasks : List Task
deriving DecidableEq, Repr

def ResourceOptimizer.add_resource (s : ResourceOptimizer) (r : Resource) : ResourceOptimizer :=
  { s with resources := s.resources ++ [r] }

def ResourceOptimizer.add_task (s : ResourceOptimizer) (t : Task) : ResourceOptimizer :=
  { s with tasks := s.tasks ++ [t] }

/-- Abstraction of the external PuLP solve: solver status (compared against
the string Optimal), the value assigned to each variable x[task][resource]
(none models varValue = None), and problem.objective.value() (none models
None, mapped to 0 by the code via the or-0 idiom). -/
structure LpOutcome where
  status : String
  varValue : String → String → Option ℚ
  objectiveValue : Option ℚ

/-! ## Sort relations mirroring Python sorted() calls.
Python sorted is stable; insertionSort with a reflexive-on-ties total
preorder is stable, so the two agree. -/

/-- sorted(self.tasks, key=lambda t: t.priority, reverse=True). -/
def taskGe (a b : Task) : Prop := b.priority ≤ a.priority

instance : DecidableRel taskGe := fun a b => inferInstanceAs (Decidable (b.priority ≤ a.priority))

/-- sorted(self.resources, key=lambda r: r.cost_per_hour). -/
def costLe (a b : Resource) : Prop := a.cost_per_hour ≤ b.cost_per_hour

instance : DecidableRel costLe := fun a b => inferInstanceAs (Decidable (a.cost_per_hour ≤ b.cost_per_hour))

/-- remaining_capacity dict comprehension: id maps to capacity*availability*horizon,
a later duplicate id overwriting an earlier one (dict semantics); ids not
present map to a default never consulted by the algorithm. -/
def initialRemaining (resources : List Resource) (h : ℚ) (id : String) : ℚ :=
  match resources.reverse.find? (fun r => r.resource_id == id) with
  | some r => r.capacity * r.availability * h
  | none => 0

/-- Sum of the unrounded hours the assignment list gives to resource id. -/
def allocatedTo (l : List Assignment) (id : String) : ℚ :=
  (l.map (fun a => if a.resource_id = id then a.allocated_raw else 0)).sum

/-- Body of the greedy loop of _simple_optimization for one task:
skip zero-forecast tasks, pick the first (cheapest) resource whose remaining
capacity is at least duration_hours, allocate min(duration*forecast, remaining). -/
def greedyStep (demand : List (String × ℚ)) (byCost : List Resource)
    (acc : List Assignment × (String → ℚ)) (t : Task) : List Assignment × (String → ℚ) :=
  if (demand.lookup t.product_id).getD 0 = 0 then acc
  else
    match byCost.find? (fun r => decide (t.duration_hours ≤ acc.2 r.resource_id)) with
    | none => acc
    | some r =>
      let allocated :=
        min (t.duration_hours * (demand.lookup t.product_id).getD 0) (acc.2 r.resource_id)
      (acc.1 ++ [{ task_id := t.task_id, product_id := t.product_id,
                   resource_id := r.resource_id, resource_type := r.resource_type,
                   allocated_hours := round2 allocated,
                   cost := round2 (allocated * r.cost_per_hour),
                   allocated_raw := allocated }],
       fun id => if id = r.resource_id then acc.2 r.resource_id - allocated else acc.2 id)

/-- The greedy loop over the priority-sorted tasks (state-threading left fold). -/
def greedyAlloc (demand : List (String × ℚ)) (byCost : List Resource) :
    List Task → List Assignment × (String → ℚ) → List Assignment × (String → ℚ)
  | [], acc => acc
  | t :: ts, acc => greedyAlloc demand byCost ts (greedyStep demand byCost acc t)

/-! ## Recommendation messages (resource optimizer).
Emoji prefixes and Python float formatting are abstracted; the message text and
its numeric parameters are kept. -/

def overUtilMsg (id : String) (u : ℚ) : String :=
  "Resource " ++ id ++ " is highly utilized (" ++ toString u ++
    " percent). Consider adding capacity or redistributing workload."

def underUtilMsg (id : String) (u : ℚ) : String :=
  "Resource " ++ id ++ " is under-utilized (" ++ toString u ++
    " percent). Consider reducing capacity or assigning additional tasks."

def unmetDemandMsg (pid : String) (d : ℚ) : String :=
  "No resources allocated for product " ++ pid ++ " with demand " ++ toString d ++
    ". Consider adding resources or adjusting priorities."

def highCostMsg (n : ℕ) : String :=
  toString n ++ " assignments have costs 50 percent above average. Review resource allocation for cost optimization."

def allocationOptimalMsg : String :=
  "Resource allocation is optimal. No immediate actions required."

/-- _generate_recommendations of ResourceOptimizer. -/
def ResourceOptimizer.generate_recommendations (assignments : List Assignment)
    (utilization : List (String × ℚ)) (demand : List (String × ℚ)) : List String :=
  let utilSeg := utilization.flatMap (fun p =>
    if 90 < p.2 then [overUtilMsg p.1 p.2]
    else if p.2 < 50 then [underUtilMsg p.1 p.2]
    else [])
  let assignedProducts := assignments.map Assignment.product_id
  let unmetSeg := demand.flatMap (fun p =>
    if assignedProducts.contains p.1 then []
    else if 0 < p.2 then [unmetDemandMsg p.1 p.2] else [])
  let costSeg :=
    if assignments.isEmpty then []
    else
      let total := (assignments.map Assignment.cost).sum
      let avg := total / assignments.length
      let high := assignments.filter (fun a => decide (avg * (3/2) < a.cost))
      if high.isEmpty then [] else [highCostMsg high.length]
  let recs := utilSeg ++ unmetSeg ++ costSeg
  if recs.isEmpty then [allocationOptimalMsg] else recs

/-- Result record built by _simple_optimization when no division by zero occurs. -/
def ResourceOptimizer.greedyResult (s : ResourceOptimizer) (demand : List (String × ℚ))
    (h : ℚ) : OptimizationResult :=
  let tasksSorted := List.insertionSort taskGe s.tasks
  let byCost := List.insertionSort costLe s.resources
  let result := greedyAlloc demand byCost tasksSorted ([], initialRemaining s.resources h)
  let utilization := s.resources.map (fun r =>
    (r.resource_id,
      round2 ((r.capacity * r.availability * h - result.2 r.resource_id) /
        (r.capacity * r.availability * h) * 100)))
  { success := true,
    objective_value := (result.1.map Assignment.allocated_hours).sum,
    assignments := result.1,
    utilization := utilization,
    recommendations := ResourceOptimizer.generate_recommendations result.1 utilization demand }

/-- _simple_optimization; none models the ZeroDivisionError raised while
computing utilization when some resource has capacity*availability*horizon = 0. -/
def ResourceOptimizer.simple_optimization (s : ResourceOptimizer) (demand : List (String × ℚ))
    (h : ℚ) : Option OptimizationResult :=
  if s.resources.any (fun r => decide (r.capacity * r.availability * h = 0)) then none
  else some (s.greedyResult demand h)

/-- Extraction loop of the solver path for one resource over all tasks:
collects assignment dicts for positive variable values and sums total_hours. -/
def extractRow (sol : LpOutcome) (r : Resource) : List Task → List Assignment × ℚ
  | [] => ([], 0)
  | t :: ts =>
    let allocated := (sol.varValue t.task_id r.resource_id).getD 0
    let rest := extractRow sol r ts
    if 0 < allocated then
      ({ task_id := t.task_id, product_id := t.product_id,
         resource_id := r.resource_id, resource_type := r.resource_type,
         allocated_hours := round2 allocated,
         cost := round2 (allocated * r.cost_per_hour),
         allocated_raw := allocated } :: rest.1, allocated + rest.2)
    else rest

/-- Result record built by the PuLP path of optimize when no division by zero
occurs.  The LP construction itself (objective by minimize_cost, bounds,
capacity and demand constraints) is handed to the external solver; its
constraint system is reflected by lpFeasible below. -/
def ResourceOptimizer.solverResult (s : ResourceOptimizer) (demand : List (String × ℚ))
    (h : ℚ) (sol : LpOutcome) : OptimizationResult :=
  let rows := s.resources.map (fun r => (r, extractRow sol r s.tasks))
  let assignments := rows.flatMap (fun p => p.2.1)
  let utilization := rows.map (fun p =>
    (p.1.resource_id, round2 (p.2.2 / (p.1.capacity * h) * 100)))
  { success := decide (sol.status = "Optimal"),
    objective_value := sol.objectiveValue.getD 0,
    assignments := assignments,
    utilization := utilization,
    recommendations := ResourceOptimizer.generate_recommendations assignments utilization demand }

/-- The PuLP path of optimize; none models the ZeroDivisionError raised while
computing utilization when some resource has capacity*horizon = 0. -/
def ResourceOptimizer.solver_optimization (s : ResourceOptimizer) (demand : List (String × ℚ))
    (h : ℚ) (sol : LpOutcome) : Option OptimizationResult :=
  if s.resources.any (fun r => decide (r.capacity * h = 0)) then none
  else some (s.solverResult demand h sol)

/-- ResourceOptimizer.optimize: dispatches on PULP_AVAILABLE.  Note the
fallback call does not receive minimize_cost (resource_optimizer.py line 89). -/
def ResourceOptimizer.optimize (pulpAvailable : Bool) (sol : LpOutcome)
    (s : ResourceOptimizer) (demand : List (String × ℚ)) (h : ℚ)
    (minimize_cost : Bool) : Option OptimizationResult :=
  if pulpAvailable then s.solver_optimization demand h sol
  else s.simple_optimization demand h

/-- The variable bounds and per-resource capacity constraints that optimize
adds to the LP problem (lines 103-134): every variable is nonnegative and each
resource total is at most capacity*availability*horizon.  A solver outcome
satisfying them models a solve that respected the emitted constraints. -/
def lpFeasible (s : ResourceOptimizer) (h : ℚ) (sol : LpOutcome) : Prop :=
  (∀ t ∈ s.tasks, ∀ r ∈ s.resources, 0 ≤ (sol.varValue t.task_id r.resource_id).getD 0) ∧
  ∀ r ∈ s.resources,
    (s.tasks.map (fun t => (sol.varValue t.task_id r.resource_id).getD 0)).sum ≤
      r.capacity * r.availability * h

/-! ## Shift scheduling (scheduling_optimizer.py) -/

/-- Employee entity. -/
structure Employee where
  employee_id : String
  name : String
  role : String
  max_hours_per_week : ℚ
  cost_per_hour : ℚ
  skills : List String
  availability : List ℤ
deriving DecidableEq, Repr

/-- ShiftRequirement entity. -/
structure ShiftRequirement where
  time_slot : ℤ
  role : String
  required_count : ℤ
  priority : ℤ
deriving DecidableEq, Repr

/-- Assigned Shift. -/
structure Shift where
  employee_id : String
  time_slot : ℤ
  duration_hours : ℤ
  role : String
  cost : ℚ
deriving DecidableEq, Repr

/-- ScheduleResult (execution_time omitted; the coverage dict is modelled as a
total function with default 0, matching coverage.get(hour, 0)). -/
structure ScheduleResult where
  success : Bool
  shifts : List Shift
  coverage : ℤ → ℕ
  total_cost : ℚ
  employee_utilization : List (String × ℚ)
  recommendations : List String

/-- SchedulingOptimizer instance state: the registered catalogs. -/
structure SchedulingOptimizer where
  employees : List Employee
  requirements : List ShiftRequirement
deriving DecidableEq, Repr

def SchedulingOptimizer.add_employee (s : SchedulingOptimizer) (e : Employee) : SchedulingOptimizer :=
  { s with employees := s.employees ++ [e] }

def SchedulingOptimizer.add_requirement (s : SchedulingOptimizer) (r : ShiftRequirement) : SchedulingOptimizer :=
  { s with requirements := s.requirements ++ [r] }

/-- sorted(self.requirements, key=lambda r: (r.priority, r.time_slot), reverse=True). -/
def reqGe (a b : ShiftRequirement) : Prop :=
  b.priority < a.priority ∨ (b.priority = a.priority ∧ b.time_slot ≤ a.time_slot)

instance : DecidableRel reqGe := fun a b =>
  inferInstanceAs (Decidable (b.priority < a.priority ∨ (b.priority = a.priority ∧ b.time_slot ≤ a.time_slot)))

/-- Key of sorted(self.employees, key=lambda e: e.cost_per_hour if minimize_cost else -e.cost_per_hour). -/
def empSortKey (minimize_cost : Bool) (e : Employee) : ℚ :=
  if minimize_cost then e.cost_per_hour else -e.cost_per_hour

def empLe (minimize_cost : Bool) (a b : Employee) : Prop :=
  empSortKey minimize_cost a ≤ empSortKey minimize_cost b

instance (mc : Bool) : DecidableRel (empLe mc) := fun a b =>
  inferInstanceAs (Decidable (empSortKey mc a ≤ empSortKey mc b))

/-- The mutable loop state of optimize: shifts list, coverage counters and the
employee_hours dict (total function, all ids start at 0). -/
structure ScheduleState where
  shifts : List Shift
  coverage : ℤ → ℕ
  employee_hours : String → ℚ

/-- The conflict scan over already-assigned shifts (lines 159-164). -/
def conflictB (shifts : List Shift) (eid : String) (slot : ℤ) (sd : ℤ) : Bool :=
  shifts.any (fun sh => sh.employee_id == eid && decide (|sh.time_slot - slot| < sd))

/-- Inner employee loop for one requirement: break once required_count is met,
otherwise test role, availability, max-hours and conflict in order and assign. -/
def assignForReq (sd : ℤ) (req : ShiftRequirement) :
    List Employee → ℕ → ScheduleState → ScheduleState
  | [], _, st => st
  | e :: es, count, st =>
    if req.required_count ≤ (count : ℤ) then st
    else if req.role ∈ e.skills then
      if req.time_slot ∈ e.availability then
        if st.employee_hours e.employee_id + (sd : ℚ) ≤ e.max_hours_per_week then
          if conflictB st.shifts e.employee_id req.time_slot sd then
            assignForReq sd req es count st
          else
            assignForReq sd req es (count + 1)
              { shifts := st.shifts ++
                  [{ employee_id := e.employee_id, time_slot := req.time_slot,
                     duration_hours := sd, role := req.role,
                     cost := (sd : ℚ) * e.cost_per_hour }],
                coverage := fun hr =>
                  if req.time_slot ≤ hr ∧ hr < req.time_slot + sd then st.coverage hr + 1
                  else st.coverage hr,
                employee_hours := fun id =>
                  if id = e.employee_id then st.employee_hours id + (sd : ℚ)
                  else st.employee_hours id }
        else assignForReq sd req es count st
      else assignForReq sd req es count st
    else assignForReq sd req es count st

/-- Outer greedy loop over the sorted requirements. -/
def runSchedule (sd : ℤ) (sortedEmps : List Employee) :
    List ShiftRequirement → ScheduleState → ScheduleState
  | [], st => st
  | req :: rs, st => runSchedule sd sortedEmps rs (assignForReq sd req sortedEmps 0 st)

/-- The complete greedy assignment pass of optimize. -/
def SchedulingOptimizer.scheduleRun (s : SchedulingOptimizer) (sd : ℤ)
    (minimize_cost : Bool) : ScheduleState :=
  runSchedule sd (List.insertionSort (empLe minimize_cost) s.employees)
    (List.insertionSort reqGe s.requirements)
    { shifts := [], coverage := fun _ => 0, employee_hours := fun _ => 0 }

/-! Scheduler recommendation messages. -/

def understaffedMsg (n : ℕ) : String :=
  toString n ++ " time slots have insufficient coverage. Consider hiring additional staff or adjusting employee availability."

def overworkedMsg (n : ℕ) : String :=
  toString n ++ " employees are near maximum hours. Monitor for burnout and consider workload redistribution."

def lowUtilizationMsg (n : ℕ) : String :=
  toString n ++ " employees have low utilization. Consider cross-training or adjusting schedules for better efficiency."

def distributionMsg (mx mn : ℕ) : String :=
  "Large variance in shift distribution (max " ++ toString mx ++ ", min " ++ toString mn ++
    "). Consider balancing workload more evenly."

def balancedMsg : String :=
  "Schedule is well-balanced. No immediate actions required."

/-- Sum of coverage.get(hour, 0) over len consecutive hours starting at slot. -/
def coverageWindowSum (coverage : ℤ → ℕ) (slot : ℤ) (len : ℕ) : ℕ :=
  ((List.range len).map (fun i => coverage (slot + i))).sum

/-- understaffed_slots of _generate_recommendations: requirements whose average
coverage over the fixed 8-hour window starting at their slot is below 80
percent of required_count (lines 226-234; the window length 8 is hard-coded). -/
def understaffedSlots (coverage : ℤ → ℕ) (requirements : List ShiftRequirement) : List ℤ :=
  (requirements.filter (fun req =>
    decide ((coverageWindowSum coverage req.time_slot 8 : ℚ) / 8 <
      (req.required_count : ℚ) * (4/5)))).map ShiftRequirement.time_slot

/-- shift_by_employee tally, preserving first-insertion order (dict semantics). -/
def bumpCount : List (String × ℕ) → String → List (String × ℕ)
  | [], id => [(id, 1)]
  | (k, n) :: rest, id =>
    if k = id then (k, n + 1) :: rest else (k, n) :: bumpCount rest id

def shiftCountValues (shifts : List Shift) : List ℕ :=
  (shifts.foldl (fun acc sh => bumpCount acc sh.employee_id) []).map Prod.snd

/-- The non-understaffed recommendation segments (over/under utilization and
shift distribution), in the order the code appends them. -/
def schedOtherRecs (shifts : List Shift) (employee_utilization : List (String × ℚ)) : List String :=
  let overworked := (employee_utilization.filter (fun p => decide (95 < p.2))).length
  let seg2 := if 0 < overworked then [overworkedMsg overworked] else []
  let lowUtil := (employee_utilization.filter (fun p => decide (p.2 < 50))).length
  let seg3 := if 0 < lowUtil then [lowUtilizationMsg lowUtil] else []
  let seg4 :=
    match shiftCountValues shifts with
    | [] => []
    | c :: cs =>
      let mx := cs.foldl max c
      let mn := cs.foldl min c
      if 5 < mx - mn then [distributionMsg mx mn] else []
  seg2 ++ seg3 ++ seg4

/-- _generate_recommendations of SchedulingOptimizer (receives the sorted
requirement list). -/
def SchedulingOptimizer.generate_recommendations (shifts : List Shift) (coverage : ℤ → ℕ)
    (employee_utilization : List (String × ℚ)) (requirements : List ShiftRequirement) :
    List String :=
  let understaffed := understaffedSlots coverage requirements
  let recs := (if understaffed.isEmpty then [] else [understaffedMsg understaffed.length]) ++
    schedOtherRecs shifts employee_utilization
  if recs.isEmpty then [balancedMsg] else recs

/-- The result record optimize builds when no employee has zero max hours. -/
def SchedulingOptimizer.buildResult (s : SchedulingOptimizer) (sd : ℤ)
    (minimize_cost : Bool) : ScheduleResult :=
  let st := s.scheduleRun sd minimize_cost
  let employee_utilization := s.employees.map (fun e =>
    (e.employee_id, round2 (st.employee_hours e.employee_id / e.max_hours_per_week * 100)))
  { success := decide (0 < st.shifts.length),
    shifts := st.shifts,
    coverage := st.coverage,
    total_cost := round2 ((st.shifts.map Shift.cost).sum),
    employee_utilization := employee_utilization,
    recommendations := SchedulingOptimizer.generate_recommendations st.shifts st.coverage
      employee_utilization (List.insertionSort reqGe s.requirements) }

/-- SchedulingOptimizer.optimize.  time_horizon_hours is accepted and unused,
as in the source.  none models the ZeroDivisionError raised while computing
employee_utilization when some registered employee has max_hours_per_week = 0. -/
def SchedulingOptimizer.optimize (s : SchedulingOptimizer) (time_horizon_hours : ℤ)
    (shift_duration : ℤ) (minimize_cost : Bool) : Option ScheduleResult :=
  if s.employees.any (fun e => e.max_hours_per_week == 0) then none
  else some (s.buildResult shift_duration minimize_cost)

/-! ## Capacity planning (capacity_planner.py) -/

/-- CapacityForecast record (all numeric fields rounded to 2 decimals as built). -/
structure CapacityForecast where
  period : String
  forecasted_demand : ℚ
  current_capacity : ℚ
  required_capacity : ℚ
  capacity_gap : ℚ
  utilization_rate : ℚ
  investment_needed : ℚ
deriving DecidableEq, Repr

/-- ExpansionPlan record. -/
structure ExpansionPlan where
  plan_id : String
  timeline : String
  investment : ℚ
  capacity_increase : ℚ
  roi_months : ℚ
  priority : String
  description : String
deriving DecidableEq, Repr

/-- CapacityPlanResult (execution_time omitted). -/
structure CapacityPlanResult where
  forecasts : List CapacityForecast
  expansion_plans : List ExpansionPlan
  total_investment : ℚ
  expected_roi : ℚ
  recommendations : List String
deriving DecidableEq, Repr

/-- CapacityPlanner instance state; demand history points are (date, demand)
with dates modelled as integers (only their order matters). -/
structure CapacityPlanner where
  capacity_cost_per_unit : ℚ
  current_capacity : ℚ
  demand_history : List (ℤ × ℚ)
deriving DecidableEq, Repr

def CapacityPlanner.set_current_capacity (s : CapacityPlanner) (c : ℚ) : CapacityPlanner :=
  { s with current_capacity := c }

def CapacityPlanner.add_demand_history (s : CapacityPlanner) (date : ℤ) (demand : ℚ) : CapacityPlanner :=
  { s with demand_history := s.demand_history ++ [(date, demand)] }

/-- sorted(self.demand_history, key=lambda x: x[0]). -/
def dateLe (a b : ℤ × ℚ) : Prop := a.1 ≤ b.1

instance : DecidableRel dateLe := fun a b => inferInstanceAs (Decidable (a.1 ≤ b.1))

/-- _analyze_trend.  Note: the recent window is the last 30 points (or all if
fewer); the older window is the first half when the history has more than 30
points and the first third otherwise. -/
def CapacityPlanner.analyze_trend (s : CapacityPlanner) : String :=
  if s.demand_history.length < 3 then "insufficient_data"
  else
    let sorted := List.insertionSort dateLe s.demand_history
    let recent := if 30 ≤ sorted.length then sorted.drop (sorted.length - 30) else sorted
    let older :=
      if 30 < sorted.length then sorted.take (sorted.length / 2)
      else sorted.take (sorted.length / 3)
    if recent.isEmpty || older.isEmpty then "stable"
    else
      let recent_avg := mean (recent.map Prod.snd)
      let older_avg := mean (older.map Prod.snd)
      let change_pct :=
        if 0 < older_avg then (recent_avg - older_avg) / older_avg * 100 else 0
      if 10 < change_pct then "growing"
      else if change_pct < -10 then "declining"
      else "stable"

/-- _generate_expansion_plans. -/
def CapacityPlanner.generate_expansion_plans (s : CapacityPlanner)
    (capacity_forecasts : List CapacityForecast) (revenue_per_unit : ℚ)
    (trend : String) : List ExpansionPlan :=
  let criticalSeg :=
    match capacity_forecasts.filter (fun fc => decide (95 < fc.utilization_rate)) with
    | [] => []
    | c :: cs =>
      let max_gap := cs.foldl (fun m fc => max m fc.capacity_gap) c.capacity_gap
      let investment := max_gap * s.capacity_cost_per_unit
      let monthly_revenue := max_gap * revenue_per_unit
      let roi_months := if 0 < monthly_revenue then investment / monthly_revenue else 999
      [{ plan_id := "EXP-001-CRITICAL", timeline := "Immediate (0-3 months)",
         investment := round2 investment, capacity_increase := round2 max_gap,
         roi_months := round2 roi_months, priority := "critical",
         description := "Immediate capacity expansion to address critical utilization (above 95 percent). Add " ++
           toString (round2 max_gap) ++ " units of capacity." }]
  let high := capacity_forecasts.filter (fun fc =>
    decide (80 ≤ fc.utilization_rate ∧ fc.utilization_rate ≤ 95))
  let highSeg :=
    if 3 < high.length then
      let avg_gap := mean (high.map CapacityForecast.capacity_gap)
      let investment := avg_gap * s.capacity_cost_per_unit
      let monthly_revenue := avg_gap * revenue_per_unit
      let roi_months := if 0 < monthly_revenue then investment / monthly_revenue else 999
      [{ plan_id := "EXP-002-HIGH", timeline := "Short-term (3-6 months)",
         investment := round2 investment, capacity_increase := round2 avg_gap,
         roi_months := round2 roi_months, priority := "high",
         description := "Proactive expansion to prevent bottlenecks. Add " ++
           toString (round2 avg_gap) ++ " units of capacity." }]
    else []
  let strategicSeg :=
    if trend = "growing" then
      let strategic_increase := s.current_capacity * (20/100)
      let investment := strategic_increase * s.capacity_cost_per_unit
      let monthly_revenue := strategic_increase * revenue_per_unit * (7/10)
      let roi_months := if 0 < monthly_revenue then investment / monthly_revenue else 999
      [{ plan_id := "EXP-003-STRATEGIC", timeline := "Long-term (6-12 months)",
         investment := round2 investment, capacity_increase := round2 strategic_increase,
         roi_months := round2 roi_months, priority := "medium",
         description := "Strategic expansion aligned with growth trend. Add " ++
           toString (round2 strategic_increase) ++ " units for future demand." }]
    else []
  let plans := criticalSeg ++ highSeg ++ strategicSeg
  if plans.isEmpty then
    [{ plan_id := "EXP-000-MONITOR", timeline := "Monitor only", investment := 0,
       capacity_increase := 0, roi_months := 0, priority := "low",
       description := "Current capacity is sufficient. Continue monitoring demand trends." }]
  else plans

/-! Planner recommendation messages. -/

def trendGrowingMsg : String :=
  "Demand is growing. Prioritize capacity expansion to capture market opportunity."

def trendDecliningMsg : String :=
  "Demand is declining. Focus on efficiency improvements rather than expansion."

def trendStableMsg : String :=
  "Demand is stable. Maintain current capacity and optimize utilization."

def urgentUtilMsg (avg : ℚ) : String :=
  "Average utilization is " ++ toString (round1 avg) ++
    " percent. High risk of bottlenecks - immediate action required."

def proactiveUtilMsg (avg : ℚ) : String :=
  "Average utilization is " ++ toString (round1 avg) ++
    " percent. Consider proactive expansion within 3-6 months."

def underutilizedMsg (avg : ℚ) : String :=
  "Average utilization is " ++ toString (round1 avg) ++
    " percent. Capacity is underutilized - focus on demand generation or cost reduction."

def criticalInvestMsg (total : ℚ) : String :=
  "Critical investments needed: " ++ toString (round2 total) ++ ". Secure funding immediately."

def goodRoiMsg (n : ℕ) : String :=
  toString n ++ " expansion plan(s) have ROI under 12 months. Highly recommended investments."

/-- _generate_recommendations of CapacityPlanner (callers guarantee
capacity_forecasts is nonempty; the empty case raises in Python and is mapped
to none by plan_capacity). -/
def CapacityPlanner.generate_recommendations (capacity_forecasts : List CapacityForecast)
    (expansion_plans : List ExpansionPlan) (trend : String) : List String :=
  let trendSeg :=
    if trend = "growing" then [trendGrowingMsg]
    else if trend = "declining" then [trendDecliningMsg]
    else [trendStableMsg]
  let avg := mean (capacity_forecasts.map CapacityForecast.utilization_rate)
  let utilSeg :=
    if 90 < avg then [urgentUtilMsg avg]
    else if 80 < avg then [proactiveUtilMsg avg]
    else if avg < 60 then [underutilizedMsg avg]
    else []
  let criticals := expansion_plans.filter (fun p => p.priority == "critical")
  let investSeg :=
    if criticals.isEmpty then []
    else [criticalInvestMsg ((criticals.map ExpansionPlan.investment).sum)]
  let good := expansion_plans.filter (fun p => decide (p.roi_months < 12))
  let roiSeg := if good.isEmpty then [] else [goodRoiMsg good.length]
  trendSeg ++ utilSeg ++ investSeg ++ roiSeg

/-- plan_capacity.  none models the exceptions of the source: the
StatisticsError from statistics.mean of the empty utilization list when no
forecast period is considered, and the ZeroDivisionError when
target_utilization is 0 (with at least one period).  Negative horizons are
outside the modelled domain (Python slicing differs there). -/
def CapacityPlanner.plan_capacity (s : CapacityPlanner) (demand_forecasts : List ℚ)
    (planning_horizon_months : ℤ) (target_utilization : ℚ)
    (revenue_per_unit : ℚ) : Option CapacityPlanResult :=
  let trend := s.analyze_trend
  let considered := demand_forecasts.take planning_horizon_months.toNat
  if considered.isEmpty then none
  else if target_utilization = 0 then none
  else
    let capacity_forecasts := considered.enum.map (fun p =>
      let forecasted_demand := p.2
      let required_capacity := forecasted_demand / target_utilization
      let capacity_gap := max 0 (required_capacity - s.current_capacity)
      let utilization_rate :=
        min (if 0 < s.current_capacity then forecasted_demand / s.current_capacity else 0) 1
      { period := "Month " ++ toString (p.1 + 1),
        forecasted_demand := round2 forecasted_demand,
        current_capacity := round2 s.current_capacity,
        required_capacity := round2 required_capacity,
        capacity_gap := round2 capacity_gap,
        utilization_rate := round2 (utilization_rate * 100),
        investment_needed := round2 (capacity_gap * s.capacity_cost_per_unit) })
    let expansion_plans := s.generate_expansion_plans capacity_forecasts revenue_per_unit trend
    let total_investment := (expansion_plans.map ExpansionPlan.investment).sum
    let total_additional := (expansion_plans.map ExpansionPlan.capacity_increase).sum
    let annual_additional_revenue := total_additional * revenue_per_unit * 12
    let expected_roi :=
      if 0 < total_investment then annual_additional_revenue / total_investment * 100 else 0
    some { forecasts := capacity_forecasts,
           expansion_plans := expansion_plans,
           total_investment := round2 total_investment,
           expected_roi := round2 expected_roi,
           recommendations := CapacityPlanner.generate_recommendations capacity_forecasts
             expansion_plans trend }

/-! ## Method wrappers with explicit state passing.
Each source method only reads the instance state (self) and never writes it;
the wrappers make that explicit for the idempotence claims. -/

def ResourceOptimizer.optimizeM (pulpAvailable : Bool) (sol : LpOutcome)
    (s : ResourceOptimizer) (demand : List (String × ℚ)) (h : ℚ)
    (minimize_cost : Bool) : Option OptimizationResult × ResourceOptimizer :=
  (ResourceOptimizer.optimize pulpAvailable sol s demand h minimize_cost, s)

def SchedulingOptimizer.optimizeM (s : SchedulingOptimizer) (th sd : ℤ)
    (minimize_cost : Bool) : Option ScheduleResult × SchedulingOptimizer :=
  (s.optimize th sd minimize_cost, s)

def CapacityPlanner.plan_capacityM (s : CapacityPlanner) (demand_forecasts : List ℚ)
    (horizon : ℤ) (target_utilization revenue_per_unit : ℚ) :
    Option CapacityPlanResult × CapacityPlanner :=
  (s.plan_capacity demand_forecasts horizon target_utilization revenue_per_unit, s)

/-! ## Lemmas about the greedy allocation loop -/

theorem allocatedTo_append (l₁ l₂ : List Assignment) (id : String) :
    allocatedTo (l₁ ++ l₂) id = allocatedTo l₁ id + allocatedTo l₂ id := by
  simp [allocatedTo]

theorem allocatedTo_eq_zero {l : List Assignment} {id : String}
    (hall : ∀ a ∈ l, a.resource_id ≠ id) : allocatedTo l id = 0 := by
  unfold allocatedTo
  apply List.sum_eq_zero
  intro x hx
  obtain ⟨a, ha, rfl⟩ := List.mem_map.mp hx
  simp [hall a ha]

/-- One greedy step conserves the sum of hours already allocated to an id and
the remaining capacity of that id. -/
theorem greedyStep_conserve (demand : List (String × ℚ)) (byCost : List Resource)
    (acc : List Assignment × (String → ℚ)) (t : Task) (id : String) :
    allocatedTo (greedyStep demand byCost acc t).1 id + (greedyStep demand byCost acc t).2 id =
      allocatedTo acc.1 id + acc.2 id := by
  unfold greedyStep
  split
  · rfl
  · split
    · rfl
    · rename_i r _
      by_cases hid : id = r.resource_id
      · subst hid
        simp only [allocatedTo, List.map_append, List.sum_append, List.map_cons,
          List.map_nil, List.sum_cons, List.sum_nil, if_pos rfl, if_true]
        ring
      · have hid2 : ¬ r.resource_id = id := fun hh => hid hh.symm
        simp only [allocatedTo, List.map_append, List.sum_append, List.map_cons,
          List.map_nil, List.sum_cons, List.sum_nil, if_neg hid, if_neg hid2]
        ring

/-- The greedy loop conserves allocated-plus-remaining per resource id. -/
theorem greedyAlloc_conserve (demand : List (String × ℚ)) (byCost : List Resource) :
    ∀ (ts : List Task) (acc : List Assignment × (String → ℚ)) (id : String),
      allocatedTo (greedyAlloc demand byCost ts acc).1 id +
          (greedyAlloc demand byCost ts acc).2 id =
        allocatedTo acc.1 id + acc.2 id := by
  intro ts
  induction ts with
  | nil => intro acc id; rfl
  | cons t ts ih =>
    intro acc id
    simp only [greedyAlloc]
    rw [ih (greedyStep demand byCost acc t) id, greedyStep_conserve]

/-- One greedy step keeps every remaining capacity nonnegative. -/
theorem greedyStep_remaining_nonneg (demand : List (String × ℚ)) (byCost : List Resource)
    (acc : List Assignment × (String → ℚ)) (t : Task)
    (hnn : ∀ id, 0 ≤ acc.2 id) (id : String) :
    0 ≤ (greedyStep demand byCost acc t).2 id := by
  unfold greedyStep
  split
  · exact hnn id
  · split
    · exact hnn id
    · rename_i r _
      simp only
      split
      · rename_i hid
        have : min (t.duration_hours * (demand.lookup t.product_id).getD 0)
            (acc.2 r.resource_id) ≤ acc.2 r.resource_id := min_le_right _ _
        have h2 := hnn r.resource_id
        linarith
      · exact hnn id

theorem greedyAlloc_remaining_nonneg (demand : List (String × ℚ)) (byCost : List Resource) :
    ∀ (ts : List Task) (acc : List Assignment × (String → ℚ)),
      (∀ id, 0 ≤ acc.2 id) → ∀ id, 0 ≤ (greedyAlloc demand byCost ts acc).2 id := by
  intro ts
  induction ts with
  | nil => intro acc hnn id; exact hnn id
  | cons t ts ih =>
    intro acc hnn id
    exact ih (greedyStep demand byCost acc t)
      (greedyStep_remaining_nonneg demand byCost acc t hnn) id

theorem initialRemaining_nonneg {resources : List Resource} {h : ℚ}
    (hnn : ∀ r ∈ resources, 0 ≤ r.capacity * r.availability * h) (id : String) :
    0 ≤ initialRemaining resources h id := by
  unfold initialRemaining
  split
  · rename_i r hfind
    exact hnn r (List.mem_reverse.mp (List.mem_of_find?_eq_some hfind))
  · exact le_refl 0

theorem initialRemaining_eq_of_nodup {resources : List Resource} {h : ℚ} {r : Resource}
    (hnd : (resources.map Resource.resource_id).Nodup) (hr : r ∈ resources) :
    initialRemaining resources h r.resource_id = r.capacity * r.availability * h := by
  unfold initialRemaining
  split
  · rename_i x hfind
    have hx : x ∈ resources := List.mem_reverse.mp (List.mem_of_find?_eq_some hfind)
    have hpred := List.find?_some hfind
    have hxid : x.resource_id = r.resource_id := by
      simpa using hpred
    have : x = r := List.inj_on_of_nodup_map hnd hx hr hxid
    rw [this]
  · rename_i hfind
    exfalso
    have := List.find?_eq_none.mp hfind r (List.mem_reverse.mpr hr)
    simp at this

/-! ## Lemmas about the solver extraction loop -/

theorem extractRow_mem_id (sol : LpOutcome) (r : Resource) :
    ∀ (ts : List Task), ∀ a ∈ (extractRow sol r ts).1, a.resource_id = r.resource_id := by
  intro ts
  induction ts with
  | nil => intro a ha; simp [extractRow] at ha
  | cons t ts ih =>
    intro a ha
    rw [extractRow] at ha
    split at ha
    · rcases List.mem_cons.mp ha with rfl | ha2
      · rfl
      · exact ih a ha2
    · exact ih a ha

theorem extractRow_total (sol : LpOutcome) (r : Resource) :
    ∀ (ts : List Task), (extractRow sol r ts).2 = allocatedTo (extractRow sol r ts).1 r.resource_id := by
  intro ts
  induction ts with
  | nil => rfl
  | cons t ts ih =>
    rw [extractRow]
    split
    · simp [allocatedTo, ih, allocatedTo_append]
    · exact ih

theorem extractRow_total_le (sol : LpOutcome) (r : Resource) :
    ∀ (ts : List Task), (∀ t ∈ ts, 0 ≤ (sol.varValue t.task_id r.resource_id).getD 0) →
      (extractRow sol r ts).2 ≤
        (ts.map (fun t => (sol.varValue t.task_id r.resource_id).getD 0)).sum := by
  intro ts
  induction ts with
  | nil => intro _; exact le_refl 0
  | cons t ts ih =>
    intro hpos
    have h0 : 0 ≤ (sol.varValue t.task_id r.resource_id).getD 0 := hpos t (List.mem_cons_self t ts)
    have hrest := ih (fun t2 ht2 => hpos t2 (List.mem_cons_of_mem t ht2))
    rw [extractRow]
    split
    · simp only [List.map_cons, List.sum_cons]
      exact add_le_add_left hrest _
    · simp only [List.map_cons, List.sum_cons]
      linarith

/-- With pairwise-distinct resource ids, the hours the solver-path assignment
list gives to a resource are exactly that resource's extracted row total. -/
theorem solver_allocatedTo (sol : LpOutcome) (tasks : List Task) :
    ∀ (resources : List Resource), (resources.map Resource.resource_id).Nodup →
      ∀ r ∈ resources,
        allocatedTo ((resources.map (fun x => (x, extractRow sol x tasks))).flatMap
          (fun p => p.2.1)) r.resource_id = (extractRow sol r tasks).2 := by
  intro resources
  induction resources with
  | nil => intro _ r hr; simp at hr
  | cons x xs ih =>
    intro hnd r hr
    have hnd2 : (xs.map Resource.resource_id).Nodup := (List.nodup_cons.mp hnd).2
    have hxnot : x.resource_id ∉ xs.map Resource.resource_id := (List.nodup_cons.mp hnd).1
    simp only [List.map_cons, List.flatMap_cons]
    rw [allocatedTo_append]
    rcases List.mem_cons.mp hr with hrx | hrxs
    · subst hrx
      have hzero : allocatedTo ((xs.map (fun x => (x, extractRow sol x tasks))).flatMap
          (fun p => p.2.1)) r.resource_id = 0 := by
        apply allocatedTo_eq_zero
        intro a ha
        obtain ⟨p, hp, hap⟩ := List.mem_flatMap.mp ha
        obtain ⟨y, hy, rfl⟩ := List.mem_map.mp hp
        have : a.resource_id = y.resource_id := extractRow_mem_id sol y tasks a hap
        rw [this]
        intro hcontra
        exact hxnot (hcontra ▸ List.mem_map_of_mem Resource.resource_id hy)
      rw [hzero, extractRow_total]
      ring
    · have hxr : x.resource_id ≠ r.resource_id := by
        intro hcontra
        exact hxnot (hcontra ▸ List.mem_map_of_mem Resource.resource_id hrxs)
      have hzero : allocatedTo (extractRow sol x tasks).1 r.resource_id = 0 := by
        apply allocatedTo_eq_zero
        intro a ha
        rw [extractRow_mem_id sol x tasks a ha]
        exact hxr
      rw [hzero, ih hnd2 r hrxs]
      ring

/-! ## Lemmas about the scheduling loop -/

/-- The no-double-booking relation the conflict check maintains. -/
def NoOverlap (sd : ℤ) (shifts : List Shift) : Prop :=
  shifts.Pairwise (fun a b => a.employee_id = b.employee_id → ¬ |a.time_slot - b.time_slot| < sd)

theorem conflictB_false {shifts : List Shift} {eid : String} {slot sd : ℤ}
    (h : conflictB shifts eid slot sd = false) :
    ∀ sh ∈ shifts, sh.employee_id = eid → ¬ |sh.time_slot - slot| < sd := by
  intro sh hsh heid habs
  rw [conflictB, List.any_eq_false] at h
  exact h sh hsh (by simp [heid, habs])

theorem assignForReq_noOverlap (sd : ℤ) (req : ShiftRequirement) :
    ∀ (es : List Employee) (count : ℕ) (st : ScheduleState),
      NoOverlap sd st.shifts → NoOverlap sd (assignForReq sd req es count st).shifts := by
  intro es
  induction es with
  | nil => intro count st hst; exact hst
  | cons e es ih =>
    intro count st hst
    rw [assignForReq]
    split
    · exact hst
    · split
      · split
        · split
          · split
            · exact ih count st hst
            · rename_i hconf
              apply ih
              simp only
              unfold NoOverlap
              rw [List.pairwise_append]
              refine ⟨hst, List.pairwise_singleton _ _, ?_⟩
              intro a ha b hb
              simp only [List.mem_singleton] at hb
              subst hb
              intro heid habs
              have hcf : conflictB st.shifts e.employee_id req.time_slot sd = false := by
                simpa using hconf
              exact conflictB_false hcf a ha heid habs
          · exact ih count st hst
        · exact ih count st hst
      · exact ih count st hst

theorem runSchedule_noOverlap (sd : ℤ) (sortedEmps : List Employee) :
    ∀ (reqs : List ShiftRequirement) (st : ScheduleState),
      NoOverlap sd st.shifts → NoOverlap sd (runSchedule sd sortedEmps reqs st).shifts := by
  intro reqs
  induction reqs with
  | nil => intro st hst; exact hst
  | cons req reqs ih =>
    intro st hst
    exact ih _ (assignForReq_noOverlap sd req sortedEmps 0 st hst)

theorem scheduleRun_noOverlap (s : SchedulingOptimizer) (sd : ℤ) (mc : Bool) :
    NoOverlap sd (s.scheduleRun sd mc).shifts :=
  runSchedule_noOverlap sd _ _ _ List.Pairwise.nil

theorem runSchedule_nil_emps (sd : ℤ) :
    ∀ (reqs : List ShiftRequirement) (st : ScheduleState),
      runSchedule sd [] reqs st = st := by
  intro reqs
  induction reqs with
  | nil => intro st; rfl
  | cons req reqs ih => intro st; exact ih st

/-- When either catalog is empty, the greedy pass assigns nothing. -/
theorem scheduleRun_degenerate (s : SchedulingOptimizer) (sd : ℤ) (mc : Bool)
    (hdeg : s.employees = [] ∨ s.requirements = []) :
    s.scheduleRun sd mc = { shifts := [], coverage := fun _ => 0, employee_hours := fun _ => 0 } := by
  rcases hdeg with he | hr
  · unfold SchedulingOptimizer.scheduleRun
    rw [he]
    exact runSchedule_nil_emps sd _ _
  · unfold SchedulingOptimizer.scheduleRun
    rw [hr]
    rfl

/-! ## Definitions written from the spec text, for refinement comparison only -/

/-- Modelled from the spec words of claim C3 (the source _analyze_trend is in
src and embedded above as CapacityPlanner.analyze_trend; this definition
follows the claim text instead): the older window is the first half of the
history, or the first third if the history exceeds 30 points, and change_pct
is computed unconditionally. -/
def specAnalyzeTrend (history : List (ℤ × ℚ)) : String :=
  if history.length < 3 then "insufficient_data"
  else
    let sorted := List.insertionSort dateLe history
    let recent := if 30 ≤ sorted.length then sorted.drop (sorted.length - 30) else sorted
    let older :=
      if 30 < sorted.length then sorted.take (sorted.length / 3)
      else sorted.take (sorted.length / 2)
    let change_pct :=
      (mean (recent.map Prod.snd) - mean (older.map Prod.snd)) / mean (older.map Prod.snd) * 100
    if 10 < change_pct then "growing"
    else if change_pct < -10 then "declining"
    else "stable"

/-- Modelled from the spec words of claim C4 (the source count is in src and
embedded above as understaffedSlots; this definition follows the claim text
instead): the number of requirements whose average hourly coverage over the
window of length shift_duration starting at their slot is below 80 percent of
required_count. -/
def specUnderstaffedCount (sd : ℤ) (coverage : ℤ → ℕ)
    (requirements : List ShiftRequirement) : ℕ :=
  (requirements.filter (fun req =>
    decide ((coverageWindowSum coverage req.time_slot sd.toNat : ℚ) / (sd : ℚ) <
      (req.required_count : ℚ) * (4/5)))).length

/-! ## Concrete instances used by counterexamples and witnesses -/

def dummyOptResult : OptimizationResult :=
  { success := false, objective_value := 0, assignments := [], utilization := [],
    recommendations := [] }

def dummySchedResult : ScheduleResult :=
  { success := false, shifts := [], coverage := fun _ => 0, total_cost := 0,
    employee_utilization := [], recommendations := [] }

/-- A resource with availability one half, to separate the two utilization
denominators. -/
def r1res : Resource :=
  { resource_id := "r1", resource_type := "machine", capacity := 10,
    cost_per_hour := 5, availability := 1/2 }

def t1task : Task :=
  { task_id := "t1", product_id := "p", required_quantity := 100,
    duration_hours := 2, priority := 5 }

def ex2 : ResourceOptimizer := { resources := [r1res], tasks := [t1task] }

def exDemand : List (String × ℚ) := [("p", 10)]

/-- A solver outcome that assigns 20 hours to every variable and reports an
optimal solve with objective 100. -/
def exSol : LpOutcome :=
  { status := "Optimal", varValue := fun _ _ => some 20, objectiveValue := some 100 }

def c2res : OptimizationResult :=
  (ResourceOptimizer.optimize false exSol ex2 exDemand 10 false).getD dummyOptResult

def c2solverRes : OptimizationResult :=
  (ResourceOptimizer.optimize true exSol ex2 exDemand 10 false).getD dummyOptResult

def emptyOpt : ResourceOptimizer := { resources := [], tasks := [] }

def c5res : OptimizationResult :=
  (ResourceOptimizer.optimize true exSol emptyOpt [] 10 true).getD dummyOptResult

/-- Planner whose history grows by more than 10 percent from the first third
to the last stretch, but not from the first half. -/
def ex3 : CapacityPlanner :=
  { capacity_cost_per_unit := 1000, current_capacity := 100,
    demand_history := [(0, 10), (1, 20), (2, 14), (3, 14)] }

/-- One employee fully covering the single requirement at slot 0. -/
def ex4 : SchedulingOptimizer :=
  { employees := [{ employee_id := "e1", name := "A", role := "operator",
                    max_hours_per_week := 40, cost_per_hour := 1,
                    skills := ["operator"], availability := [0] }],
    requirements := [{ time_slot := 0, role := "operator", required_count := 1,
                       priority := 5 }] }

def c4res : ScheduleResult := (ex4.optimize 168 4 true).getD dummySchedResult

def c6res : ScheduleResult := (ex4.optimize 168 8 true).getD dummySchedResult

/-- A registered employee with zero max hours and an empty requirement list. -/
def ex9 : SchedulingOptimizer :=
  { employees := [{ employee_id := "e1", name := "A", role := "operator",
                    max_hours_per_week := 0, cost_per_hour := 1,
                    skills := ["operator"], availability := [0] }],
    requirements := [] }

def emptySched : SchedulingOptimizer := { employees := [], requirements := [] }

def c9res : ScheduleResult := (emptySched.optimize 168 8 true).getD dummySchedResult

/-! ## Claim theorems -/

/-- C1: the claim states that every well-formed call (capacity at least 0,
max_hours_per_week at least 0, availability in the unit interval, empty
catalogs and empty forecast lists allowed) returns a result and raises no
exception, empty forecasts in particular being handled by an empty-result
branch.  The code contradicts this: plan_capacity with an empty forecast list
reaches statistics.mean of the empty per-period utilization list in
_generate_recommendations (capacity_planner.py line 296) and raises
StatisticsError, modelled here by none. -/
theorem plan_capacity_empty_forecast_raises :
    CapacityPlanner.plan_capacity
      { capacity_cost_per_unit := 1000, current_capacity := 0, demand_history := [] }
      [] 12 (17/20) 100 = none := rfl

/-- C5: on the solver path, success is reported exactly when the solver status
is Optimal and objective_value is the solver objective with None mapped to 0
(the infeasible case); the greedy fallback always reports success with its own
summed objective over the allocated_hours fields. -/
theorem success_and_objective_semantics :
    ∀ (s : ResourceOptimizer) (demand : List (String × ℚ)) (h : ℚ) (mc : Bool)
      (sol : LpOutcome) (res res2 : OptimizationResult),
      (ResourceOptimizer.optimize true sol s demand h mc = some res →
        (res.success = true ↔ sol.status = "Optimal") ∧
        res.objective_value = sol.objectiveValue.getD 0) ∧
      (ResourceOptimizer.optimize false sol s demand h mc = some res2 →
        res2.success = true ∧
        res2.objective_value = (res2.assignments.map Assignment.allocated_hours).sum) := by
  intro s demand h mc sol res res2
  constructor
  · intro h1
    rw [ResourceOptimizer.optimize, if_pos rfl, ResourceOptimizer.solver_optimization] at h1
    split at h1
    · exact Option.noConfusion h1
    · have hres := Option.some.inj h1
      subst hres
      refine ⟨?_, rfl⟩
      simp [ResourceOptimizer.solverResult]
  · intro h2
    rw [ResourceOptimizer.optimize] at h2
    simp only [Bool.false_eq_true, if_false] at h2
    rw [ResourceOptimizer.simple_optimization] at h2
    split at h2
    · exact Option.noConfusion h2
    · have hres := Option.some.inj h2
      subst hres
      exact ⟨rfl, rfl⟩

theorem success_and_objective_semantics_witness :
    ((c5res.success = true ↔ exSol.status = "Optimal") ∧
      c5res.objective_value = exSol.objectiveValue.getD 0) ∧
    (c2res.success = true ∧
      c2res.objective_value = (c2res.assignments.map Assignment.allocated_hours).sum) :=
  ⟨(success_and_objective_semantics emptyOpt [] 10 true exSol c5res c2res).1 rfl,
   (success_and_objective_semantics ex2 exDemand 10 false exSol c5res c2res).2 rfl⟩

/-- C6: whenever optimize returns a result, its shift list never contains two
shifts of the same employee whose slots are closer than shift_duration. -/
theorem shift_no_overlap :
    ∀ (s : SchedulingOptimizer) (th sd : ℤ) (mc : Bool) (res : ScheduleResult),
      s.optimize th sd mc = some res →
      res.shifts.Pairwise
        (fun a b => a.employee_id = b.employee_id → ¬ |a.time_slot - b.time_slot| < sd) := by
  intro s th sd mc res h1
  rw [SchedulingOptimizer.optimize] at h1
  split at h1
  · exact Option.noConfusion h1
  · have hres := Option.some.inj h1
    subst hres
    exact scheduleRun_noOverlap s sd mc

theorem shift_no_overlap_witness :
    ex4.optimize 168 8 true = some c6res ∧
    c6res.shifts.Pairwise
      (fun a b => a.employee_id = b.employee_id → ¬ |a.time_slot - b.time_slot| < 8) :=
  ⟨rfl, shift_no_overlap ex4 168 8 true c6res rfl⟩

/-- C8: under explicit state passing, each of the three calls leaves the
registered catalog state unchanged and a second identical call on the
resulting state returns the identical result; the greedy fallback in
particular is a deterministic pure function of the catalog and arguments. -/
theorem optimize_idempotent_no_hidden_state :
    ∀ (p : Bool) (sol : LpOutcome) (s : ResourceOptimizer) (d : List (String × ℚ))
      (h : ℚ) (mc : Bool) (s2 : SchedulingOptimizer) (th sd : ℤ) (mc2 : Bool)
      (s3 : CapacityPlanner) (df : List ℚ) (hm : ℤ) (tu rpu : ℚ),
      (ResourceOptimizer.optimizeM p sol s d h mc).2 = s ∧
      (ResourceOptimizer.optimizeM p sol (ResourceOptimizer.optimizeM p sol s d h mc).2 d h mc).1 =
        (ResourceOptimizer.optimizeM p sol s d h mc).1 ∧
      (s2.optimizeM th sd mc2).2 = s2 ∧
      ((s2.optimizeM th sd mc2).2.optimizeM th sd mc2).1 = (s2.optimizeM th sd mc2).1 ∧
      (s3.plan_capacityM df hm tu rpu).2 = s3 ∧
      ((s3.plan_capacityM df hm tu rpu).2.plan_capacityM df hm tu rpu).1 =
        (s3.plan_capacityM df hm tu rpu).1 :=
  fun _ _ _ _ _ _ _ _ _ _ _ _ _ _ _ => ⟨rfl, rfl, rfl, rfl, rfl, rfl⟩

/-- C9 counterexample: with zero requirements registered but an employee whose
max_hours_per_week is 0, optimize raises ZeroDivisionError while computing
employee_utilization (scheduling_optimizer.py line 192) instead of returning a
success-false result; the claim asserts that zero requirements always yield a
returned result. -/
theorem schedule_zero_hours_employee_raises :
    ex9.optimize 168 8 true = none := rfl

/-- C9 (amended): whenever optimize returns a result (no registered employee
has max_hours_per_week = 0), success holds exactly when at least one shift was
assigned, and an empty employee catalog or an empty requirement catalog gives
success false with an empty shift list and zero total cost. -/
theorem schedule_success_iff_some_shift :
    ∀ (s : SchedulingOptimizer) (th sd : ℤ) (mc : Bool) (res : ScheduleResult),
      s.optimize th sd mc = some res →
      (res.success = true ↔ res.shifts ≠ []) ∧
      (s.employees = [] ∨ s.requirements = [] →
        res.success = false ∧ res.shifts = [] ∧ res.total_cost = 0) := by
  intro s th sd mc res h1
  rw [SchedulingOptimizer.optimize] at h1
  split at h1
  · exact Option.noConfusion h1
  · have hres := Option.some.inj h1
    subst hres
    constructor
    · simp [SchedulingOptimizer.buildResult, List.length_pos]
    · intro hdeg
      have hrun := scheduleRun_degenerate s sd mc hdeg
      refine ⟨?_, ?_, ?_⟩
      · simp [SchedulingOptimizer.buildResult, hrun]
      · simp [SchedulingOptimizer.buildResult, hrun]
      · simp only [SchedulingOptimizer.buildResult, hrun]
        show round2 (([] : List Shift).map Shift.cost).sum = 0
        decide

theorem schedule_success_iff_some_shift_witness :
    emptySched.optimize 168 8 true = some c9res ∧
    ((c9res.success = true ↔ c9res.shifts ≠ []) ∧
      (emptySched.employees = [] ∨ emptySched.requirements = [] →
        c9res.success = false ∧ c9res.shifts = [] ∧ c9res.total_cost = 0)) :=
  ⟨rfl, schedule_success_iff_some_shift emptySched 168 8 true c9res rfl⟩

theorem isEmpty_false_of_length_pos {α : Type} {l : List α} (h : 0 < l.length) :
    l.isEmpty = false := by
  cases l with
  | nil => simp at h
  | cons a l => rfl

/-- Conservation of allocated-plus-remaining from the empty initial state. -/
theorem greedyAlloc_conserve_nil (demand : List (String × ℚ)) (byCost : List Resource)
    (ts : List Task) (init : String → ℚ) (id : String) :
    allocatedTo (greedyAlloc demand byCost ts ([], init)).1 id +
      (greedyAlloc demand byCost ts ([], init)).2 id = init id := by
  rw [greedyAlloc_conserve]
  show allocatedTo [] id + init id = init id
  rw [show allocatedTo [] id = 0 from rfl, zero_add]

/-- C3 counterexample: on the four-point history of ex3 the code classifies
the trend as growing (its older window is the first third, one point of value
10), while the claim text (older window the first half, mean 15) classifies it
as stable. -/
theorem analyze_trend_window_counterexample :
    ex3.analyze_trend = "growing" ∧ specAnalyzeTrend ex3.demand_history = "stable" ∧
    ex3.analyze_trend ≠ specAnalyzeTrend ex3.demand_history :=
  ⟨by decide, by decide, by decide⟩

/-- C3 (amended): _analyze_trend returns insufficient_data exactly below 3
points; otherwise, over the date-sorted history, it compares the mean of the
last 30 points (or all if fewer) with the mean of the first half when the
history exceeds 30 points and of the first third otherwise, takes
change_pct = (recent-older)/older*100 when the older mean is positive and 0
otherwise, and classifies growing above 10, declining below -10, else stable. -/
theorem analyze_trend_characterization :
    ∀ (s : CapacityPlanner),
      (s.demand_history.length < 3 → s.analyze_trend = "insufficient_data") ∧
      (3 ≤ s.demand_history.length →
        s.analyze_trend =
          (let sorted := List.insertionSort dateLe s.demand_history
           let recent := if 30 ≤ sorted.length then sorted.drop (sorted.length - 30) else sorted
           let older :=
             if 30 < sorted.length then sorted.take (sorted.length / 2)
             else sorted.take (sorted.length / 3)
           let change_pct :=
             if 0 < mean (older.map Prod.snd) then
               (mean (recent.map Prod.snd) - mean (older.map Prod.snd)) /
                 mean (older.map Prod.snd) * 100
             else 0
           if 10 < change_pct then "growing"
           else if change_pct < -10 then "declining"
           else "stable")) := by
  intro s
  constructor
  · intro hlt
    rw [CapacityPlanner.analyze_trend, if_pos hlt]
  · intro hge
    have hnlt : ¬ s.demand_history.length < 3 := not_lt.mpr hge
    rw [CapacityPlanner.analyze_trend, if_neg hnlt]
    simp only []
    have hslen : (List.insertionSort dateLe s.demand_history).length = s.demand_history.length :=
      List.length_insertionSort _ _
    have hrec : (if 30 ≤ (List.insertionSort dateLe s.demand_history).length then
        (List.insertionSort dateLe s.demand_history).drop
          ((List.insertionSort dateLe s.demand_history).length - 30)
      else List.insertionSort dateLe s.demand_history).isEmpty = false := by
      by_cases h30 : 30 ≤ (List.insertionSort dateLe s.demand_history).length
      · rw [if_pos h30]
        apply isEmpty_false_of_length_pos
        rw [List.length_drop, Nat.sub_sub_self h30]
        norm_num
      · rw [if_neg h30]
        apply isEmpty_false_of_length_pos
        omega
    have hold : (if 30 < (List.insertionSort dateLe s.demand_history).length then
        (List.insertionSort dateLe s.demand_history).take
          ((List.insertionSort dateLe s.demand_history).length / 2)
      else (List.insertionSort dateLe s.demand_history).take
          ((List.insertionSort dateLe s.demand_history).length / 3)).isEmpty = false := by
      by_cases h30 : 30 < (List.insertionSort dateLe s.demand_history).length
      · rw [if_pos h30]
        apply isEmpty_false_of_length_pos
        rw [List.length_take]
        omega
      · rw [if_neg h30]
        apply isEmpty_false_of_length_pos
        rw [List.length_take]
        omega
    rw [hrec, hold]
    rfl

theorem analyze_trend_characterization_witness :
    3 ≤ ex3.demand_history.length ∧
    ex3.analyze_trend =
      (let sorted := List.insertionSort dateLe ex3.demand_history
       let recent := if 30 ≤ sorted.length then sorted.drop (sorted.length - 30) else sorted
       let older :=
         if 30 < sorted.length then sorted.take (sorted.length / 2)
         else sorted.take (sorted.length / 3)
       let change_pct :=
         if 0 < mean (older.map Prod.snd) then
           (mean (recent.map Prod.snd) - mean (older.map Prod.snd)) /
             mean (older.map Prod.snd) * 100
         else 0
       if 10 < change_pct then "growing"
       else if change_pct < -10 then "declining"
       else "stable") :=
  ⟨by decide, (analyze_trend_characterization ex3).2 (by decide)⟩

/-- C4 counterexample: with shift_duration 4 the single requirement of ex4 is
fully covered over its own 4-hour window (average 1, at least 80 percent of
required_count 1), so the claim predicts no insufficient-coverage warning;
the code averages over a fixed 8-hour window (average one half) and emits the
warning for 1 slot as the first recommendation. -/
theorem understaffed_window_counterexample :
    ex4.optimize 168 4 true = some c4res ∧
    c4res.recommendations.head? = some (understaffedMsg 1) ∧
    specUnderstaffedCount 4 c4res.coverage (List.insertionSort reqGe ex4.requirements) = 0 :=
  ⟨rfl, by decide, by decide⟩

/-- C4 (amended): the understaffed count uses a fixed 8-hour window with
divisor 8 regardless of shift_duration; when the count is positive the warning
carrying exactly that count is emitted first in the recommendation list, and
when it is zero the recommendations consist solely of the other rule segments
(with the well-balanced fallback if none fire). -/
theorem understaffed_window_is_eight_hours :
    ∀ (s : SchedulingOptimizer) (th sd : ℤ) (mc : Bool) (res : ScheduleResult),
      s.optimize th sd mc = some res →
      (0 < (understaffedSlots res.coverage (List.insertionSort reqGe s.requirements)).length →
        res.recommendations.head? =
          some (understaffedMsg
            (understaffedSlots res.coverage (List.insertionSort reqGe s.requirements)).length)) ∧
      ((understaffedSlots res.coverage (List.insertionSort reqGe s.requirements)).length = 0 →
        res.recommendations =
          (if (schedOtherRecs res.shifts res.employee_utilization).isEmpty then [balancedMsg]
           else schedOtherRecs res.shifts res.employee_utilization)) := by
  intro s th sd mc res h1
  rw [SchedulingOptimizer.optimize] at h1
  split at h1
  · exact Option.noConfusion h1
  · have hres := Option.some.inj h1
    subst hres
    simp only [SchedulingOptimizer.buildResult, SchedulingOptimizer.generate_recommendations]
    constructor
    · intro hpos
      have hu := isEmpty_false_of_length_pos hpos
      simp [hu]
    · intro hzero
      have hu : understaffedSlots (s.scheduleRun sd mc).coverage
          (List.insertionSort reqGe s.requirements) = [] := List.length_eq_zero.mp hzero
      simp [hu]

theorem understaffed_window_is_eight_hours_witness :
    ex4.optimize 168 4 true = some c4res ∧
    ((0 < (understaffedSlots c4res.coverage (List.insertionSort reqGe ex4.requirements)).length →
      c4res.recommendations.head? =
        some (understaffedMsg
          (understaffedSlots c4res.coverage (List.insertionSort reqGe ex4.requirements)).length)) ∧
    ((understaffedSlots c4res.coverage (List.insertionSort reqGe ex4.requirements)).length = 0 →
      c4res.recommendations =
        (if (schedOtherRecs c4res.shifts c4res.employee_utilization).isEmpty then [balancedMsg]
         else schedOtherRecs c4res.shifts c4res.employee_utilization))) :=
  ⟨rfl, understaffed_window_is_eight_hours ex4 168 4 true c4res rfl⟩

/-- C2 counterexample: in the greedy fallback on ex2 (availability one half,
horizon 10), 20 hours are allocated to r1 and the reported utilization is 40,
while the claim formula total/(capacity*horizon)*100 yields 20: the greedy
denominator includes the availability factor. -/
theorem greedy_utilization_denominator_counterexample :
    ResourceOptimizer.optimize false exSol ex2 exDemand 10 false = some c2res ∧
    allocatedTo c2res.assignments "r1" = 20 ∧
    c2res.utilization = [("r1", 40)] ∧
    round2 (allocatedTo c2res.assignments "r1" / (r1res.capacity * 10) * 100) = 20 ∧
    ((40 : ℚ) ≠ 20) :=
  ⟨rfl, by decide, by decide, by decide, by decide⟩

/-- C2 (amended): with pairwise-distinct resource ids, each path reports for
every registered resource the utilization
round2(total_allocated/(denominator)*100), where the denominator is
capacity*horizon on the solver path but capacity*availability*horizon in the
greedy fallback. -/
theorem utilization_formula_per_path :
    ∀ (s : ResourceOptimizer) (demand : List (String × ℚ)) (h : ℚ) (sol : LpOutcome)
      (mc : Bool) (res res2 : OptimizationResult) (r : Resource),
      (ResourceOptimizer.optimize false sol s demand h mc = some res →
        (s.resources.map Resource.resource_id).Nodup → r ∈ s.resources →
        (r.resource_id,
          round2 (allocatedTo res.assignments r.resource_id /
            (r.capacity * r.availability * h) * 100)) ∈ res.utilization) ∧
      (ResourceOptimizer.optimize true sol s demand h mc = some res2 →
        (s.resources.map Resource.resource_id).Nodup → r ∈ s.resources →
        (r.resource_id,
          round2 (allocatedTo res2.assignments r.resource_id /
            (r.capacity * h) * 100)) ∈ res2.utilization) := by
  intro s demand h sol mc res res2 r
  constructor
  · intro h1 hnd hr
    rw [ResourceOptimizer.optimize] at h1
    simp only [Bool.false_eq_true, if_false] at h1
    rw [ResourceOptimizer.simple_optimization] at h1
    split at h1
    · exact Option.noConfusion h1
    · have hres := Option.some.inj h1
      subst hres
      simp only [ResourceOptimizer.greedyResult]
      have hinit := initialRemaining_eq_of_nodup (h := h) hnd hr
      have hcons := greedyAlloc_conserve_nil demand (List.insertionSort costLe s.resources)
        (List.insertionSort taskGe s.tasks) (initialRemaining s.resources h) r.resource_id
      rw [hinit] at hcons
      have key : r.capacity * r.availability * h -
          (greedyAlloc demand (List.insertionSort costLe s.resources)
            (List.insertionSort taskGe s.tasks)
            ([], initialRemaining s.resources h)).2 r.resource_id =
          allocatedTo (greedyAlloc demand (List.insertionSort costLe s.resources)
            (List.insertionSort taskGe s.tasks)
            ([], initialRemaining s.resources h)).1 r.resource_id := by
        linarith
      refine List.mem_map.mpr ⟨r, hr, ?_⟩
      simp only [key]
  · intro h2 hnd hr
    rw [ResourceOptimizer.optimize, if_pos rfl, ResourceOptimizer.solver_optimization] at h2
    split at h2
    · exact Option.noConfusion h2
    · have hres := Option.some.inj h2
      subst hres
      simp only [ResourceOptimizer.solverResult]
      have halloc := solver_allocatedTo sol s.tasks s.resources hnd r hr
      rw [halloc, List.map_map]
      exact List.mem_map.mpr ⟨r, hr, rfl⟩

/-- Witness for the per-path utilization formulas, on ex2 in both paths. -/
theorem utilization_formula_per_path_witness :
    ((r1res.resource_id,
        round2 (allocatedTo c2res.assignments r1res.resource_id /
          (r1res.capacity * r1res.availability * 10) * 100)) ∈ c2res.utilization) ∧
    ((r1res.resource_id,
        round2 (allocatedTo c2solverRes.assignments r1res.resource_id /
          (r1res.capacity * 10) * 100)) ∈ c2solverRes.utilization) :=
  ⟨(utilization_formula_per_path ex2 exDemand 10 exSol false c2res c2solverRes r1res).1
      rfl (by decide) (by decide),
   (utilization_formula_per_path ex2 exDemand 10 exSol false c2res c2solverRes r1res).2
      rfl (by decide) (by decide)⟩

/-- C7: in the greedy fallback (under the data-model sign conventions:
nonnegative horizon and nonnegative capacity*availability) and in the solver
path (for any solver outcome satisfying the variable bounds and capacity
constraints the code emits), the hours assigned to each registered resource
never exceed capacity*availability*horizon. -/
theorem capacity_constraint_never_violated :
    ∀ (s : ResourceOptimizer) (demand : List (String × ℚ)) (h : ℚ) (sol : LpOutcome)
      (mc : Bool) (res res2 : OptimizationResult) (r : Resource),
      (ResourceOptimizer.optimize false sol s demand h mc = some res →
        (s.resources.map Resource.resource_id).Nodup → r ∈ s.resources →
        0 ≤ h → (∀ r2 ∈ s.resources, 0 ≤ r2.capacity * r2.availability) →
        allocatedTo res.assignments r.resource_id ≤ r.capacity * r.availability * h) ∧
      (ResourceOptimizer.optimize true sol s demand h mc = some res2 →
        (s.resources.map Resource.resource_id).Nodup → r ∈ s.resources →
        lpFeasible s h sol →
        allocatedTo res2.assignments r.resource_id ≤ r.capacity * r.availability * h) := by
  intro s demand h sol mc res res2 r
  constructor
  · intro h1 hnd hr hh hca
    rw [ResourceOptimizer.optimize] at h1
    simp only [Bool.false_eq_true, if_false] at h1
    rw [ResourceOptimizer.simple_optimization] at h1
    split at h1
    · exact Option.noConfusion h1
    · have hres := Option.some.inj h1
      subst hres
      simp only [ResourceOptimizer.greedyResult]
      have hinit := initialRemaining_eq_of_nodup (h := h) hnd hr
      have hcons := greedyAlloc_conserve_nil demand (List.insertionSort costLe s.resources)
        (List.insertionSort taskGe s.tasks) (initialRemaining s.resources h) r.resource_id
      rw [hinit] at hcons
      have hremnn : 0 ≤ (greedyAlloc demand (List.insertionSort costLe s.resources)
          (List.insertionSort taskGe s.tasks)
          ([], initialRemaining s.resources h)).2 r.resource_id := by
        apply greedyAlloc_remaining_nonneg
        intro id
        exact initialRemaining_nonneg
          (fun r2 hr2 => mul_nonneg (hca r2 hr2) hh) id
      linarith
  · intro h2 hnd hr hfeas
    rw [ResourceOptimizer.optimize, if_pos rfl, ResourceOptimizer.solver_optimization] at h2
    split at h2
    · exact Option.noConfusion h2
    · have hres := Option.some.inj h2
      subst hres
      simp only [ResourceOptimizer.solverResult]
      have halloc := solver_allocatedTo sol s.tasks s.resources hnd r hr
      rw [halloc]
      calc (extractRow sol r s.tasks).2 ≤
          (s.tasks.map (fun t => (sol.varValue t.task_id r.resource_id).getD 0)).sum :=
            extractRow_total_le sol r s.tasks (fun t ht => hfeas.1 t ht r hr)
        _ ≤ r.capacity * r.availability * h := hfeas.2 r hr

/-- Witness for the capacity bound, on ex2 in both paths. -/
theorem capacity_constraint_never_violated_witness :
    allocatedTo c2res.assignments r1res.resource_id ≤
      r1res.capacity * r1res.availability * 10 ∧
    allocatedTo c2solverRes.assignments r1res.resource_id ≤
      r1res.capacity * r1res.availability * 10 :=
  ⟨(capacity_constraint_never_violated ex2 exDemand 10 exSol false c2res c2solverRes r1res).1
      rfl (by decide) (by decide) (by decide) (by decide),
   (capacity_constraint_never_violated ex2 exDemand 10 exSol false c2res c2solverRes r1res).2
      rfl (by decide) (by decide) (by unfold lpFeasible; decide)⟩

/-- C10: when the solver is unavailable the minimize_cost flag has no effect;
optimize forwards to the greedy fallback without it, so the results for the
two flag values are identical on every input. -/
theorem fallback_identical_for_both_cost_flags :
    ∀ (sol : LpOutcome) (s : ResourceOptimizer) (d : List (String × ℚ)) (h : ℚ),
      ResourceOptimizer.optimize false sol s d h true =
        ResourceOptimizer.optimize false sol s d h false :=
  fun _ _ _ _ => rfl

end Barnameh
